import Mathlib

/-!
Verification of RimSort's Steamworks subscription orchestration layer
(`app/utils/steam/steamworks/wrapper.py`).

Shallow embedding: pure Python fragments become Lean functions; effectful
code (SDK calls, sleeps, unload, thread join) becomes an explicit event
trace; shared mutable session state becomes a `SessionState` record with
explicit step functions; Python exceptions become `Except`. Wall-clock
times are rationals (seconds); where a loop computes elapsed time we either
take the observed values as part of the trace (`WaitObs.elapsed`) or
idealize elapsed time at iteration `i` as `i` times the sleep interval
(the load-wait loop of `run`).
-/

namespace RimSortSW

/-- Timing constant `RESUBSCRIBE_STAGE_WAIT = 1` (seconds), wrapper.py line 50. -/
def RESUBSCRIBE_STAGE_WAIT : ℚ := 1

/-- Timing constant `OPERATION_INTERVAL = 0.1` (seconds), wrapper.py line 51. -/
def OPERATION_INTERVAL : ℚ := 1 / 10

/-- Timing constant `STEAMWORKS_TIMEOUT = 30` (seconds), wrapper.py line 52. -/
def STEAMWORKS_TIMEOUT : ℚ := 30

/-- SDK calls issued to the ISteamUGC Workshop interface. -/
inductive SDKCall where
  | subscribeItem (pfid : Int)
  | unsubscribeItem (pfid : Int)
  | downloadItem (pfid : Int) (highPriority : Bool)
  | getAppDependencies (pfid : Int)
deriving Repr, DecidableEq

/-- Observable events of a run: Workshop SDK calls, sleeps, callback
registrations, SDK unload, and joining the poll thread. -/
inductive Event where
  | call (c : SDKCall)
  | sleep (seconds : ℚ)
  | registerCallback (kind : String)
  | unload
  | threadJoin
deriving Repr, DecidableEq

/-- The `operation_map` of `_queue_operations` (wrapper.py lines 464 to 467):
only the keys "subscribe" and "unsubscribe" are mapped to Workshop calls. -/
def operationMap : String → Option (Int → SDKCall)
  | "subscribe" => some .subscribeItem
  | "unsubscribe" => some .unsubscribeItem
  | _ => none

/-- Event trace of `SteamworksSubscriptionHandler._queue_operations`
(wrapper.py lines 450 to 476): one call per pfid in input order, with an
`OPERATION_INTERVAL` sleep after every call except the last. -/
def queueOperations (operation : String) : List Int → List Event
  | [] => []
  | [p] =>
    match operationMap operation with
    | some f => [.call (f p)]
    | none => []
  | p :: q :: rest =>
    (match operationMap operation with
     | some f => [.call (f p)]
     | none => []) ++ .sleep OPERATION_INTERVAL :: queueOperations operation (q :: rest)

/-- Event trace of `_register_callbacks` (wrapper.py lines 478 to 501):
checks "unsubscribe" membership first, then "subscribe". -/
def registerCallbacksTrace (unsub sub : Bool) : List Event :=
  (if unsub then [.registerCallback "unsubscribe"] else [])
    ++ (if sub then [.registerCallback "subscribe"] else [])

/-- Event trace of `SteamworksSubscriptionHandler._handle_resubscribe`
(wrapper.py lines 503 to 571): register callbacks, unsubscribe all mods,
sleep `RESUBSCRIBE_STAGE_WAIT`, subscribe all mods, sleep
`RESUBSCRIBE_STAGE_WAIT`, then a high-priority `DownloadItem` per mod. -/
def handleResubscribe (pfids : List Int) : List Event :=
  registerCallbacksTrace true true
    ++ queueOperations "unsubscribe" pfids
    ++ [.sleep RESUBSCRIBE_STAGE_WAIT]
    ++ queueOperations "subscribe" pfids
    ++ [.sleep RESUBSCRIBE_STAGE_WAIT]
    ++ pfids.map (fun p => .call (.downloadItem p true))

/-- Event trace of `_handle_subscribe` (wrapper.py lines 573 to 582). -/
def handleSubscribe (pfids : List Int) : List Event :=
  registerCallbacksTrace false true ++ queueOperations "subscribe" pfids

/-- Event trace of `_handle_unsubscribe` (wrapper.py lines 584 to 595). -/
def handleUnsubscribe (pfids : List Int) : List Event :=
  registerCallbacksTrace true false ++ queueOperations "unsubscribe" pfids

/-- View of a trace keeping only Workshop SDK calls and the fixed
inter-stage delays (`RESUBSCRIBE_STAGE_WAIT`); the 0.1 s intra-stage gaps
and registrations are dropped. -/
def stageView (es : List Event) : List Event :=
  es.filter fun e =>
    match e with
    | .call _ => true
    | .sleep d => d == RESUBSCRIBE_STAGE_WAIT
    | _ => false

/-!
Completion Waiter: `SteamworksInterface._wait_for_callbacks`
(wrapper.py lines 188 to 209). The loop reads shared state each iteration:
the `end_callbacks` flag (written concurrently by callback handlers),
`steamworks_thread.is_alive()`, and the elapsed wall-clock time
`time() - start_time`. We embed one run as the list of these observations
in the order the loop head reaches them.
-/

/-- One loop-head observation of `_wait_for_callbacks`: the value read of
`end_callbacks`, whether the poll thread is alive, and the elapsed time. -/
structure WaitObs where
  endCallbacks : Bool
  threadAlive : Bool
  elapsed : ℚ
deriving Repr, DecidableEq

/-- Outcome of `_wait_for_callbacks`: the returned Bool plus whether the
waiter itself forced `end_callbacks := true` (the timeout branch);
`outOfTrace` is the model artifact of exhausting the observation list. -/
inductive WaitOutcome where
  | returned (result : Bool) (forcedFlag : Bool)
  | outOfTrace
deriving Repr, DecidableEq

/-- `_wait_for_callbacks(timeout)` (wrapper.py lines 188 to 209): loop while
`not end_callbacks and thread.is_alive()`; inside, if `elapsed >= timeout`
set the flag and return False; on loop-condition failure return True. -/
def waitForCallbacks (timeout : ℚ) : List WaitObs → WaitOutcome
  | [] => .outOfTrace
  | o :: rest =>
    if o.endCallbacks = false ∧ o.threadAlive = true then
      if timeout ≤ o.elapsed then .returned false true
      else waitForCallbacks timeout rest
    else .returned true false

/-- An observation that keeps the wait loop going: flag unset, thread alive,
elapsed time still below the timeout. -/
def liveObs (timeout : ℚ) (o : WaitObs) : Bool :=
  !o.endCallbacks && o.threadAlive && decide (o.elapsed < timeout)

/-!
Session state and callback handlers.
-/

/-- Session state shared between the orchestrating flow and the poll
thread: the stop flag `end_callbacks`, the callback counter
`callbacks_count`, the `multiple_queries` / `callbacks_total`
configuration, and the accumulated `get_app_deps_query_result` map
(an insertion-ordered association list, as a Python dict). -/
structure SessionState where
  endCallbacks : Bool
  callbacksCount : ℕ
  multipleQueries : Bool
  callbacksTotal : Option ℕ
  depsResult : List (Int × List Int)
deriving Repr, DecidableEq

/-- Python dict assignment `result[pfid] = deps`: overwrite an existing
key in place or append a new binding. -/
def setResult (m : List (Int × List Int)) (k : Int) (v : List Int) :
    List (Int × List Int) :=
  if m.any (fun kv => kv.1 == k) then
    m.map (fun kv => if kv.1 == k then (k, v) else kv)
  else m ++ [(k, v)]

/-- Keys of the result map. -/
def resultKeys (m : List (Int × List Int)) : List Int := m.map Prod.fst

/-- A Steamworks callback payload as seen by a Python handler taking
`*args`: whether `args` is nonempty, which attributes `args[0]` carries
(`publishedFileId`, `result`, `get_app_dependencies_list`), and their
values when present. -/
structure CallbackPayload where
  hasArgs : Bool
  hasPublishedFileId : Bool
  hasResult : Bool
  hasDepsList : Bool
  pfid : Int
  result : Int
  deps : List Int
deriving Repr, DecidableEq

/-- Python exceptions a handler body can raise: `args[0]` on an empty tuple
raises IndexError, a missing attribute raises AttributeError. -/
inductive PyError where
  | indexError
  | attributeError
deriving Repr, DecidableEq

/-- Log output shapes, distinguishing detailed lines from the degraded
generic ones. -/
inductive LogLine where
  | detailed (operation : String) (pfid : Int) (result : Option Int)
  | generic (operation : String)
  | downloadInitiated (pfid : Int)
  | downloadWarn (result : Int) (pfid : Int)
  | parseFailed
deriving Repr, DecidableEq

/-- The closure created by `_create_callback` (wrapper.py lines 597 to
622): increments the counter outside the try, then logs defensively — the
attribute test uses `hasattr` and a defaulted `getattr`, and the body sits
in a `try` whose `except Exception` only logs — so no exception escapes
for any payload, and the stop flag is never touched. -/
def createCallbackRun (operation : String) (s : SessionState) (p : CallbackPayload) :
    Except PyError (SessionState × LogLine) :=
  let s1 := { s with callbacksCount := s.callbacksCount + 1 }
  if p.hasArgs = true ∧ p.hasPublishedFileId = true then
    .ok (s1, .detailed operation p.pfid (if p.hasResult = true then some p.result else none))
  else
    .ok (s1, .generic operation)

/-- State visible after a `_create_callback` closure runs: the state
component of `createCallbackRun`. -/
def subCallbackState (operation : String) (s : SessionState) (p : CallbackPayload) :
    SessionState :=
  match createCallbackRun operation s p with
  | .ok (s2, _) => s2
  | .error _ => s

/-- Body of the closure created by `_create_download_callback` (wrapper.py
lines 624 to 647): reads `args[0].result` then `args[0].publishedFileId`. -/
def downloadCallbackBody (p : CallbackPayload) : Except PyError (Int × Int) :=
  if p.hasArgs = false then .error .indexError
  else if p.hasResult = false then .error .attributeError
  else if p.hasPublishedFileId = false then .error .attributeError
  else .ok (p.result, p.pfid)

/-- The download callback closure: its try catches exactly IndexError and
AttributeError, the only exceptions its body can raise, logging a parse
failure instead. -/
def downloadCallbackRun (p : CallbackPayload) : Except PyError LogLine :=
  match downloadCallbackBody p with
  | .ok (r, pfid) =>
    .ok (if r = 1 then .downloadInitiated pfid else .downloadWarn r pfid)
  | .error _ => .ok .parseFailed

/-- Core state update of `_cb_app_dependencies_result_callback`
(wrapper.py lines 158 to 180) on a well-formed payload: increment the
counter, record the dependency list when nonempty, and set the stop flag
on a count match when `multiple_queries`, or unconditionally otherwise. -/
def cbAppDependenciesResult (s : SessionState) (pfid : Int) (deps : List Int) :
    SessionState :=
  let count := s.callbacksCount + 1
  let res :=
    if 0 < deps.length then setResult s.depsResult pfid deps else s.depsResult
  let stop :=
    if s.multipleQueries = true ∧ s.callbacksTotal = some count then true
    else if s.multipleQueries = false then true
    else s.endCallbacks
  { endCallbacks := stop, callbacksCount := count,
    multipleQueries := s.multipleQueries, callbacksTotal := s.callbacksTotal,
    depsResult := res }

/-- `_cb_app_dependencies_result_callback` on an arbitrary payload: the
handler has no try/except, so the attribute reads performed after the
counter increment (`args[0].result`, `args[0].publishedFileId`,
`args[0].get_app_dependencies_list()`) raise out of the handler when the
payload lacks them. -/
def cbAppDependenciesRun (s : SessionState) (p : CallbackPayload) :
    Except PyError SessionState :=
  if p.hasArgs = false then .error .indexError
  else if p.hasResult = false then .error .attributeError
  else if p.hasPublishedFileId = false then .error .attributeError
  else if p.hasDepsList = false then .error .attributeError
  else .ok (cbAppDependenciesResult s p.pfid p.deps)

/-- State visible after `_cb_app_dependencies_result_callback` returns or
raises: the counter increment precedes the attribute reads, so it sticks
even when the handler raises; the stop flag and the result map are only
written on the well-formed path. -/
def depCallbackState (s : SessionState) (p : CallbackPayload) : SessionState :=
  match cbAppDependenciesRun s p with
  | .ok s2 => s2
  | .error _ => { s with callbacksCount := s.callbacksCount + 1 }

/-- One atomic state change during an orchestrated action, after session
construction: a subscription callback firing, a dependency callback
firing, the waiter observing its timeout (wrapper.py line 206), or one
idle poll-loop iteration. -/
inductive SessionStep where
  | subCallback (operation : String) (p : CallbackPayload)
  | depCallback (p : CallbackPayload)
  | waitTimeout
  | pollIterate
deriving Repr, DecidableEq

/-- Effect of one step on the session state. -/
def applyStep (s : SessionState) : SessionStep → SessionState
  | .subCallback op p => subCallbackState op s p
  | .depCallback p => depCallbackState s p
  | .waitTimeout => { s with endCallbacks := true }
  | .pollIterate => s

/-- The main loop of `_callbacks` (wrapper.py lines 148 to 155): pump
`run_callbacks` while the stop flag reads false. `flagReads` is the
sequence of values the loop head reads of `end_callbacks`; the result is
the number of pump invocations performed. -/
def callbacksLoopPumps : List Bool → ℕ
  | [] => 0
  | flag :: rest => if flag then 0 else 1 + callbacksLoopPumps rest

/-- Folding an arbitrary sequence of fired subscription callbacks (the
closures created by `_create_callback`, the only handlers `run` registers
for subscribe/unsubscribe/resubscribe) over the session state. -/
def applySubCallbacks (s : SessionState) : List (String × CallbackPayload) → SessionState
  | [] => s
  | f :: rest => applySubCallbacks (subCallbackState f.1 s f.2) rest

/-!
Subscription handler construction and run.
-/

/-- The `valid_actions` set of `SteamworksSubscriptionHandler.__init__`
(wrapper.py line 349). -/
def validActions : List String := ["subscribe", "unsubscribe", "resubscribe"]

/-- The fields a constructed `SteamworksSubscriptionHandler` records. -/
structure SubscriptionHandler where
  action : String
  pfidOrPfids : List Int
deriving Repr, DecidableEq

/-- Input normalization (wrapper.py lines 357 to 360 and 233 to 235): a
bare int becomes a one-element list, a list is kept as given. -/
def normalizePfids : Int ⊕ List Int → List Int
  | .inl p => [p]
  | .inr ps => ps

/-- `SteamworksSubscriptionHandler.__init__` (wrapper.py lines 329 to
360): validates the action literal and raises ValueError on an unknown
one; no SDK object is constructed and no SDK call is issued here — the
second component of the ok value is the (empty) trace of SDK events during
construction. -/
def subscriptionHandlerInit (action : String) (input : Int ⊕ List Int) :
    Except String (SubscriptionHandler × List Event) :=
  if action ∈ validActions then .ok (⟨action, normalizePfids input⟩, [])
  else .error "ValueError"

/-- Environment of one `SteamworksSubscriptionHandler.run`: whether SDK
initialization raised at open (`steam_not_running`), which load-wait
checks observe `steamworks.loaded()` true, whether the poll thread is
alive when the finally block runs, and the waiter observations of the
final wait. -/
structure RunEnv where
  steamNotRunning : Bool
  loaded : ℕ → Bool
  threadAliveAtCleanup : Bool
  waitObs : List WaitObs

/-- Number of `loaded()` checks the load-wait loop of `run` (wrapper.py
lines 396 to 403) can reach: idealizing elapsed time at check `i` as
`i · OPERATION_INTERVAL`, the abort condition `time() - start > 30` first
holds at check index 301. -/
def loadCheckLimit : ℕ := 301

/-- Whether the load-wait loop exits by observing `loaded()` true rather
than by its timeout return. -/
def loadWaitSucceeds (loaded : ℕ → Bool) : Bool :=
  (List.range (loadCheckLimit + 1)).any loaded

/-- Result of a subscription run. -/
inductive RunResult where
  | abortedUnavailable
  | abortedLoadTimeout
  | finished (completedByWaiter : Bool)
deriving Repr, DecidableEq

/-- `SteamworksSubscriptionHandler.run` (wrapper.py lines 362 to 448) as a
result plus event trace, mirroring the source control flow: the
unavailable branch unloads and returns (lines 388 to 392); the load-wait
loop's timeout `return` at line 402 happens before the try statement, so
that path produces no staging, no thread join and no unload; the staging
branches run inside the try whose finally joins the poll thread when it is
alive and then unloads. -/
def subscriptionRun (env : RunEnv) (h : SubscriptionHandler) :
    RunResult × List Event :=
  if env.steamNotRunning = true then (.abortedUnavailable, [.unload])
  else if loadWaitSucceeds env.loaded = false then (.abortedLoadTimeout, [])
  else
    let staging :=
      if h.action = "resubscribe" then handleResubscribe h.pfidOrPfids
      else if h.action = "subscribe" then handleSubscribe h.pfidOrPfids
      else if h.action = "unsubscribe" then handleUnsubscribe h.pfidOrPfids
      else []
    let completed :=
      match waitForCallbacks STEAMWORKS_TIMEOUT env.waitObs with
      | .returned r _ => r
      | .outOfTrace => false
    (.finished completed,
      staging ++ (if env.threadAliveAtCleanup then [.threadJoin] else [])
        ++ [.unload])

/-- The subscribe, unsubscribe and forced-download calls of a trace. -/
def workshopActionCalls (es : List Event) : List SDKCall :=
  es.filterMap fun e =>
    match e with
    | .call (SDKCall.subscribeItem p) => some (.subscribeItem p)
    | .call (SDKCall.unsubscribeItem p) => some (.unsubscribeItem p)
    | .call (SDKCall.downloadItem p hp) => some (.downloadItem p hp)
    | _ => none

/-!
SteamworksInterface construction.
-/

/-- Truthiness of the Python optional `callbacks_total` (wrapper.py line
105): None and 0 are falsy. -/
def truthy : Option ℕ → Bool
  | none => false
  | some n => n != 0

/-- Outcomes of the two external SDK calls `SteamworksInterface.__init__`
makes: constructing the `STEAMWORKS` object (a library-loading call) and
`steamworks.initialize()`. -/
structure InitEnv where
  constructorRaises : Bool
  initializeRaises : Bool
deriving Repr, DecidableEq

/-- The observable fields of a constructed `SteamworksInterface`. -/
structure InterfaceState where
  callbacks : Bool
  callbacksCount : ℕ
  callbacksTotal : Option ℕ
  multipleQueries : Bool
  steamNotRunning : Bool
  threadSpawned : Bool
deriving Repr, DecidableEq

/-- `SteamworksInterface.__init__` (wrapper.py lines 84 to 131). The
`STEAMWORKS(_libs=_libs)` construction at line 115 happens outside the
try/except, so an exception there propagates to the caller; only
`initialize()` at line 117 is guarded, its failure becoming
`steam_not_running = True`. The poll thread is spawned only when callbacks
are enabled and initialize did not raise. `multiple_queries` is assigned
only under `callbacks`; it is modelled as false otherwise since it is only
read when callbacks are enabled. -/
def interfaceInit (env : InitEnv) (callbacks : Bool) (callbacksTotal : Option ℕ) :
    Except String InterfaceState :=
  if env.constructorRaises = true then .error "STEAMWORKS construction raised"
  else
    .ok { callbacks := callbacks, callbacksCount := 0,
          callbacksTotal := callbacksTotal,
          multipleQueries := callbacks && truthy callbacksTotal,
          steamNotRunning := env.initializeRaises,
          threadSpawned := !env.initializeRaises && callbacks }

/-!
Dependency query.
-/

/-- A well-formed dependency callback delivery: the id it reports and the
returned dependency list. -/
structure DepDelivery where
  pfid : Int
  deps : List Int
deriving Repr, DecidableEq

/-- Environment of one `SteamworksAppDependenciesQuery.run`: whether the
SDK initialize raised, the value of `steamworks.loaded()` at the body's
single check, and the callback deliveries processed before the wait
ended (at most 60 seconds' worth). -/
structure DepQueryEnv where
  steamNotRunning : Bool
  loadedAtCheck : Bool
  deliveries : List DepDelivery
deriving Repr, DecidableEq

/-- Poll-thread processing of dependency callbacks during the wait: each
delivery runs `_cb_app_dependencies_result_callback`, except that once the
stop flag is set the poll loop stops pumping and later deliveries are not
processed. -/
def processDeliveries (s : SessionState) : List DepDelivery → SessionState
  | [] => s
  | d :: rest =>
    if s.endCallbacks = true then s
    else processDeliveries (cbAppDependenciesResult s d.pfid d.deps) rest

/-- `SteamworksAppDependenciesQuery.run` (wrapper.py lines 223 to 266):
returns None when `steam_not_running`; the `while not loaded(): break`
with its `else` clause runs the query body only when `loaded()` is true at
that single check, otherwise the function falls through to `return None`;
the body opens the session with `callbacks_total = len(pfids)`, issues one
GetAppDependencies per id, waits up to 60 seconds, joins the poll thread
and returns the accumulated map. -/
def depQueryRun (env : DepQueryEnv) (input : Int ⊕ List Int) :
    Option (List (Int × List Int)) :=
  let pfids := normalizePfids input
  if env.steamNotRunning = true then none
  else if env.loadedAtCheck = false then none
  else
    let s0 : SessionState :=
      { endCallbacks := false, callbacksCount := 0,
        multipleQueries := truthy (some pfids.length),
        callbacksTotal := some pfids.length, depsResult := [] }
    some (processDeliveries s0 env.deliveries).depsResult

/-!
Helper lemmas.
-/

theorem stageView_queueOperations (op : String) (f : Int → SDKCall)
    (hf : operationMap op = some f) (pfids : List Int) :
    stageView (queueOperations op pfids) = pfids.map (fun p => .call (f p)) := by
  induction pfids with
  | nil => rfl
  | cons p rest ih =>
    cases rest with
    | nil => simp [queueOperations, stageView, hf]
    | cons q rest2 =>
      have hop : (OPERATION_INTERVAL == RESUBSCRIBE_STAGE_WAIT) = false := by
        simp [OPERATION_INTERVAL, RESUBSCRIBE_STAGE_WAIT]
      simp only [queueOperations, hf, List.map_cons]
      unfold stageView at ih ⊢
      simp [List.filter_append, hop, ih]

theorem stageView_map_call (f : Int → SDKCall) (pfids : List Int) :
    stageView (pfids.map fun p => Event.call (f p)) = pfids.map fun p => Event.call (f p) :=
  List.filter_eq_self.mpr (by
    intro a ha
    rcases List.mem_map.mp ha with ⟨p, _, rfl⟩
    rfl)

theorem subCallbackState_endCallbacks (op : String) (s : SessionState)
    (p : CallbackPayload) :
    (subCallbackState op s p).endCallbacks = s.endCallbacks := by
  unfold subCallbackState createCallbackRun
  by_cases h : p.hasArgs = true ∧ p.hasPublishedFileId = true
  · simp [h]
  · simp [h]

theorem subCallbackState_count (op : String) (s : SessionState)
    (p : CallbackPayload) :
    (subCallbackState op s p).callbacksCount = s.callbacksCount + 1 := by
  unfold subCallbackState createCallbackRun
  by_cases h : p.hasArgs = true ∧ p.hasPublishedFileId = true
  · simp [h]
  · simp [h]

theorem cbAppDependenciesResult_mono (s : SessionState) (pfid : Int)
    (deps : List Int) (h : s.endCallbacks = true) :
    (cbAppDependenciesResult s pfid deps).endCallbacks = true := by
  unfold cbAppDependenciesResult
  simp only
  split
  · rfl
  · split
    · rfl
    · exact h

theorem depCallbackState_mono (s : SessionState) (p : CallbackPayload)
    (h : s.endCallbacks = true) :
    (depCallbackState s p).endCallbacks = true := by
  unfold depCallbackState cbAppDependenciesRun
  by_cases h1 : p.hasArgs = false
  · simp [h1, h]
  · by_cases h2 : p.hasResult = false
    · simp [h1, h2, h]
    · by_cases h3 : p.hasPublishedFileId = false
      · simp [h1, h2, h3, h]
      · by_cases h4 : p.hasDepsList = false
        · simp [h1, h2, h3, h4, h]
        · simp [h1, h2, h3, h4, cbAppDependenciesResult_mono s p.pfid p.deps h]

theorem applySubCallbacks_flag (fires : List (String × CallbackPayload))
    (s : SessionState) :
    (applySubCallbacks s fires).endCallbacks = s.endCallbacks := by
  induction fires generalizing s with
  | nil => rfl
  | cons f rest ih =>
    rw [applySubCallbacks, ih, subCallbackState_endCallbacks]

theorem applySubCallbacks_count (fires : List (String × CallbackPayload))
    (s : SessionState) :
    (applySubCallbacks s fires).callbacksCount = s.callbacksCount + fires.length := by
  induction fires generalizing s with
  | nil => rfl
  | cons f rest ih =>
    rw [applySubCallbacks, ih, subCallbackState_count, List.length_cons]
    omega

theorem resultKeys_setResult (m : List (Int × List Int)) (k : Int)
    (v : List Int) (x : Int) (hx : x ∈ resultKeys (setResult m k v)) :
    x ∈ resultKeys m ∨ x = k := by
  unfold setResult resultKeys at hx
  unfold resultKeys
  by_cases hm : m.any (fun kv => kv.1 == k)
  · rw [if_pos hm] at hx
    rw [List.map_map] at hx
    rcases List.mem_map.mp hx with ⟨kv, hkv, hxeq⟩
    by_cases hk : kv.1 == k
    · right
      simp [Function.comp, hk] at hxeq
      exact hxeq.symm
    · left
      simp [Function.comp, hk] at hxeq
      rw [← hxeq]
      exact List.mem_map.mpr ⟨kv, hkv, rfl⟩
  · rw [if_neg hm] at hx
    rw [List.map_append] at hx
    rcases List.mem_append.mp hx with h | h
    · exact Or.inl h
    · right
      simpa using h

theorem cbAppDependenciesResult_keys (s : SessionState) (pfid : Int)
    (deps : List Int) (x : Int)
    (hx : x ∈ resultKeys (cbAppDependenciesResult s pfid deps).depsResult) :
    x ∈ resultKeys s.depsResult ∨ x = pfid := by
  unfold cbAppDependenciesResult at hx
  simp only at hx
  by_cases hd : 0 < deps.length
  · rw [if_pos hd] at hx
    exact resultKeys_setResult s.depsResult pfid deps x hx
  · rw [if_neg hd] at hx
    exact Or.inl hx

theorem processDeliveries_keys (ds : List DepDelivery) (s : SessionState)
    (x : Int) (hx : x ∈ resultKeys (processDeliveries s ds).depsResult) :
    x ∈ resultKeys s.depsResult ∨ ∃ d ∈ ds, x = d.pfid := by
  induction ds generalizing s with
  | nil => exact Or.inl hx
  | cons d rest ih =>
    rw [processDeliveries] at hx
    by_cases hf : s.endCallbacks = true
    · rw [if_pos hf] at hx
      exact Or.inl hx
    · rw [if_neg hf] at hx
      rcases ih _ hx with h | h
      · rcases cbAppDependenciesResult_keys s d.pfid d.deps x h with h2 | h2
        · exact Or.inl h2
        · exact Or.inr ⟨d, List.mem_cons_self d rest, h2⟩
      · rcases h with ⟨d2, hd2, hx2⟩
        exact Or.inr ⟨d2, List.mem_cons_of_mem d hd2, hx2⟩

/-!
Claim theorems.
-/

/-- C1: for every resubscribe action over an identifier list, the sequence of
SDK calls issued is exactly unsubscribe of each id, a fixed delay, subscribe of
each id, a fixed delay, then forced download of each id; stages never
interleave and within each stage ids are processed in caller-supplied order. -/
theorem resubscribe_call_order (pfids : List Int) :
    stageView (handleResubscribe pfids) =
      pfids.map (fun p => .call (.unsubscribeItem p))
        ++ [.sleep RESUBSCRIBE_STAGE_WAIT]
        ++ pfids.map (fun p => .call (.subscribeItem p))
        ++ [.sleep RESUBSCRIBE_STAGE_WAIT]
        ++ pfids.map (fun p => .call (.downloadItem p true)) := by
  have hu := stageView_queueOperations "unsubscribe" _ rfl pfids
  have hs := stageView_queueOperations "subscribe" _ rfl pfids
  have hd := stageView_map_call (fun p => SDKCall.downloadItem p true) pfids
  unfold stageView at hu hs hd ⊢
  simp only [handleResubscribe, registerCallbacksTrace, if_pos, List.filter_append]
  rw [hu, hs, hd]
  simp

/-- C2 counterexample: with the stop flag never set but the poll thread not
alive at the first check, `_wait_for_callbacks` returns True immediately
without forcing the flag — refuting "returns true if and only if the stop
flag was observed set before the timeout elapsed" and the follow-up "the
flag is already set" after a completed call. -/
theorem wait_true_without_flag_set :
    waitForCallbacks 30 [⟨false, false, 0⟩] = .returned true false ∧
    (⟨false, false, 0⟩ : WaitObs).endCallbacks = false := by
  refine ⟨?_, rfl⟩
  simp [waitForCallbacks]

/-- C2 (amended): the first observation that is not "flag unset, thread
alive, elapsed below timeout" decides the waiter's outcome — if it satisfies
the loop-exit condition (stop flag set or poll thread dead) the waiter
returns True without touching the flag, otherwise the elapsed time reached
the timeout with the flag unset and a live thread and the waiter returns
False, itself forcing the stop flag. In particular a second call whose first
observation already shows the flag set returns True immediately without
changing state. -/
theorem waitForCallbacks_characterization (timeout : ℚ) (obs : List WaitObs) :
    (waitForCallbacks timeout obs =
      match obs.dropWhile (liveObs timeout) with
      | [] => .outOfTrace
      | o :: _ =>
        if o.endCallbacks = true ∨ o.threadAlive = false then .returned true false
        else .returned false true) ∧
    (∀ o rest, o.endCallbacks = true →
      waitForCallbacks timeout (o :: rest) = .returned true false) := by
  constructor
  · induction obs with
    | nil => rfl
    | cons o rest ih =>
      rcases o with ⟨ec, ta, el⟩
      cases ec with
      | true => simp [waitForCallbacks, liveObs, List.dropWhile]
      | false =>
        cases ta with
        | false => simp [waitForCallbacks, liveObs, List.dropWhile]
        | true =>
          by_cases h2 : timeout ≤ el
          · simp [waitForCallbacks, liveObs, List.dropWhile, h2, not_lt.mpr h2]
          · simp [waitForCallbacks, liveObs, List.dropWhile, h2,
              lt_of_not_le h2, ih]
  · intro o rest h
    simp [waitForCallbacks, h]

/-- C2 witness: the amended characterization applied at a concrete trace
whose first observation has the stop flag set. -/
theorem waitForCallbacks_characterization_witness :
    waitForCallbacks 30 [⟨true, true, 0⟩] = .returned true false :=
  (waitForCallbacks_characterization 30 [⟨true, true, 0⟩]).2 ⟨true, true, 0⟩ [] rfl

/-- C3: the stop flag is monotone — no step of an orchestrated action (a
subscription callback, a dependency callback, a waiter timeout, an idle poll
iteration) resets it to false, so it transitions at most once from false to
true — and the polling loop pumps callbacks only for the reads before the
first read of a set flag: once the flag reads true, no further callback
processing occurs. -/
theorem stop_flag_monotone (s : SessionState) (st : SessionStep)
    (flagReads : List Bool) :
    (s.endCallbacks = true → (applyStep s st).endCallbacks = true) ∧
    callbacksLoopPumps flagReads = (flagReads.takeWhile (fun b => !b)).length := by
  constructor
  · intro h
    cases st with
    | subCallback op p => rw [applyStep, subCallbackState_endCallbacks]; exact h
    | depCallback p => exact depCallbackState_mono s p h
    | waitTimeout => rfl
    | pollIterate => exact h
  · induction flagReads with
    | nil => rfl
    | cons b rest ih =>
      cases b with
      | true => rfl
      | false =>
        simp [callbacksLoopPumps, List.takeWhile, ih]
        omega

/-- C3 witness: the monotonicity step applied at a concrete state with the
flag set, and the pump count of a concrete read sequence. -/
theorem stop_flag_monotone_witness :
    (applyStep ⟨true, 0, false, none, []⟩ .pollIterate).endCallbacks = true ∧
    callbacksLoopPumps [false, false, true, false] =
      (([false, false, true, false]).takeWhile (fun b => !b)).length := by
  have h := stop_flag_monotone ⟨true, 0, false, none, []⟩ .pollIterate
    [false, false, true, false]
  exact ⟨h.1 rfl, h.2⟩

/-- C10 counterexample (negation of the claim): the completed-by-callback
terminal state is unreachable for the subscription orchestrator — for no
starting state with the stop flag unset and no sequence of fired
subscribe/unsubscribe callbacks (the only handlers `run` registers, with
`callbacks_total = None`) does the flag end up set. -/
theorem no_callback_completion_for_subscriptions :
    ¬ ∃ (s : SessionState) (fires : List (String × CallbackPayload)),
        s.endCallbacks = false ∧ (applySubCallbacks s fires).endCallbacks = true := by
  rintro ⟨s, fires, h0, h1⟩
  rw [applySubCallbacks_flag, h0] at h1
  exact Bool.false_ne_true h1

/-- C10 (amended): in subscribe, unsubscribe and resubscribe runs the
registered callback handlers only increment the callback counter and never
touch the stop flag (the count-based stop exists only in the dependency
query's handler), so the run's wait phase can never end completed-by-callback:
the stop flag after any sequence of callback firings equals its initial
value. -/
theorem subscription_callbacks_never_complete (s : SessionState)
    (fires : List (String × CallbackPayload)) :
    (applySubCallbacks s fires).endCallbacks = s.endCallbacks ∧
    (applySubCallbacks s fires).callbacksCount = s.callbacksCount + fires.length :=
  ⟨applySubCallbacks_flag fires s, applySubCallbacks_count fires s⟩

/-- C4: constructing the subscription handler succeeds exactly when the
action is one of subscribe, unsubscribe, resubscribe, fails fast with
ValueError on any other value, and in either case issues zero SDK
interactions at construction time (a successful construction records the
action and the normalized id list, with an empty SDK-event trace). -/
theorem handler_init_validates (action : String) (input : Int ⊕ List Int) :
    ((subscriptionHandlerInit action input).isOk = true ↔ action ∈ validActions) ∧
    (∀ h es, subscriptionHandlerInit action input = .ok (h, es) →
      es = [] ∧ h.action = action ∧ h.pfidOrPfids = normalizePfids input) := by
  unfold subscriptionHandlerInit
  by_cases hv : action ∈ validActions
  · simp only [if_pos hv]
    refine ⟨⟨fun _ => hv, fun _ => rfl⟩, ?_⟩
    intro h es heq
    rw [Except.ok.injEq, Prod.mk.injEq] at heq
    refine ⟨heq.2.symm, ?_, ?_⟩
    · rw [← heq.1]
    · rw [← heq.1]
  · simp only [if_neg hv]
    refine ⟨⟨fun hh => absurd hh (by simp [Except.isOk, Except.toBool]), fun hh => absurd hh hv⟩, ?_⟩
    intro h es heq
    exact absurd heq (by simp)

/-- C4 witness: the validation theorem applied at the concrete action
"subscribe" with ids [1, 2]. -/
theorem handler_init_validates_witness :
    ([] : List Event) = [] ∧
    (SubscriptionHandler.mk "subscribe" [1, 2]).action = "subscribe" ∧
    (SubscriptionHandler.mk "subscribe" [1, 2]).pfidOrPfids =
      normalizePfids (Sum.inr [1, 2]) :=
  (handler_init_validates "subscribe" (Sum.inr [1, 2])).2
    ⟨"subscribe", [1, 2]⟩ [] (by rfl)

/-- C5: when the platform is reported unavailable at session open
(`steam_not_running` true), a subscription run issues zero subscribe,
unsubscribe or forced-download SDK calls, whatever the action and ids. -/
theorem unavailable_no_workshop_calls (env : RunEnv) (h : SubscriptionHandler)
    (hn : env.steamNotRunning = true) :
    workshopActionCalls (subscriptionRun env h).2 = [] := by
  simp [subscriptionRun, hn, workshopActionCalls]

/-- C5 witness: the theorem applied at a concrete unavailable environment
and a concrete subscribe handler. -/
theorem unavailable_no_workshop_calls_witness :
    workshopActionCalls
      (subscriptionRun ⟨true, fun _ => false, false, []⟩ ⟨"subscribe", [1]⟩).2 = [] :=
  unavailable_no_workshop_calls ⟨true, fun _ => false, false, []⟩ ⟨"subscribe", [1]⟩ rfl

/-- C6 counterexample: when the SDK object construction itself raises (the
`STEAMWORKS(_libs=_libs)` call at wrapper.py line 115, e.g. a library load
failure), `SteamworksInterface.__init__` propagates the exception to the
caller: that call sits outside the try/except, which guards only
`initialize()`. -/
theorem interface_init_can_propagate :
    interfaceInit ⟨true, false⟩ true none = .error "STEAMWORKS construction raised" :=
  rfl

/-- C6 (amended): provided the `STEAMWORKS` object construction does not
raise, `SteamworksInterface.__init__` never propagates an exception: a
failure of the SDK `initialize()` call is absorbed and surfaced only as
`steam_not_running = true`, and in that case the poll thread is not
spawned. -/
theorem interface_init_absorbs_initialize_failure (env : InitEnv) (cb : Bool)
    (tot : Option ℕ) (hc : env.constructorRaises = false) :
    ∃ st, interfaceInit env cb tot = Except.ok st ∧
      st.steamNotRunning = env.initializeRaises ∧
      (st.steamNotRunning = true → st.threadSpawned = false) := by
  refine ⟨{ callbacks := cb, callbacksCount := 0, callbacksTotal := tot,
            multipleQueries := cb && truthy tot,
            steamNotRunning := env.initializeRaises,
            threadSpawned := !env.initializeRaises && cb }, ?_, rfl, ?_⟩
  · simp [interfaceInit, hc]
  · intro h
    simp only at h
    simp [h]

/-- C6 witness: the amended theorem applied at a concrete environment whose
initialize call raises. -/
theorem interface_init_absorbs_initialize_failure_witness :
    ∃ st, interfaceInit ⟨false, true⟩ true none = Except.ok st ∧
      st.steamNotRunning = (⟨false, true⟩ : InitEnv).initializeRaises ∧
      (st.steamNotRunning = true → st.threadSpawned = false) :=
  interface_init_absorbs_initialize_failure ⟨false, true⟩ true none rfl

/-- C7: with the SDK available but `loaded()` never reported true within the
30-second budget, `run` returns from the load-wait loop (wrapper.py line
402) before the try/finally block is entered. The resulting trace is empty:
no stage is issued (as the claim says), but also no thread join and no SDK
unload occur — the session is not released, contradicting the claim and the
spec's guaranteed-cleanup teardown; compare the unavailable branch (lines
388 to 392), which does unload. -/
theorem load_timeout_skips_cleanup :
    subscriptionRun ⟨false, fun _ => false, true, []⟩ ⟨"subscribe", [7]⟩ =
      (RunResult.abortedLoadTimeout, ([] : List Event)) := by
  have hl : loadWaitSucceeds (fun _ => false) = false := by
    simp [loadWaitSucceeds]
  simp [subscriptionRun, hl]

/-- C8 counterexample: with the platform available at open
(`steam_not_running` false) but `steamworks.loaded()` false at the body's
single check, `run` falls through its `while not loaded(): break ... else`
construct and returns None — refuting "returns null if and only if the
platform was unavailable at open". -/
theorem dep_query_none_though_available :
    depQueryRun ⟨false, false, []⟩ (Sum.inr [10]) = none ∧
    (⟨false, false, []⟩ : DepQueryEnv).steamNotRunning = false :=
  ⟨rfl, rfl⟩

/-- C8 (amended): the Dependency Query returns None iff the platform was
unavailable at open or the SDK did not report loaded at the body's single
check; otherwise it returns the accumulated result map, and when every
processed delivery reports a queried identifier the map's key set is a
subset of the input identifiers — an identifier that never produced a
dependency result is simply absent, not an error. (The wait is bounded by
60 seconds with the count-based early stop performed by the dependency
handler, embedded in `cbAppDependenciesResult` and `processDeliveries`.) -/
theorem dep_query_characterization (env : DepQueryEnv) (input : Int ⊕ List Int) :
    (depQueryRun env input = none ↔
      (env.steamNotRunning = true ∨ env.loadedAtCheck = false)) ∧
    (∀ m, depQueryRun env input = some m →
      (∀ d ∈ env.deliveries, d.pfid ∈ normalizePfids input) →
      ∀ x ∈ resultKeys m, x ∈ normalizePfids input) := by
  unfold depQueryRun
  by_cases h1 : env.steamNotRunning = true
  · simp only [if_pos h1]
    exact ⟨by simp [h1], fun m hm => absurd hm (by simp)⟩
  · by_cases h2 : env.loadedAtCheck = false
    · simp only [if_neg h1, if_pos h2]
      exact ⟨by simp [h2], fun m hm => absurd hm (by simp)⟩
    · simp only [if_neg h1, if_neg h2]
      refine ⟨by simp [h1, h2], ?_⟩
      intro m hm hd x hx
      rw [Option.some.injEq] at hm
      rw [← hm] at hx
      rcases processDeliveries_keys env.deliveries _ x hx with h | ⟨d, hdm, hxd⟩
      · exact absurd h (by simp [resultKeys])
      · rw [hxd]
        exact hd d hdm

/-- C8 witness: the amended characterization applied at a concrete
environment with one delivery for the queried id 10. -/
theorem dep_query_characterization_witness :
    ∀ x ∈ resultKeys [((10 : Int), [(294100 : Int)])], x ∈ normalizePfids (Sum.inr [10, 20]) :=
  (dep_query_characterization ⟨false, true, [⟨10, [294100]⟩]⟩ (Sum.inr [10, 20])).2
    [(10, [294100])] rfl
    (by
      intro d hd
      simp at hd
      rw [hd]
      simp [normalizePfids])

/-- C9 counterexample: the dependency-result handler
`_cb_app_dependencies_result_callback` has no try/except; invoked with an
empty `args` tuple, the read `args[0].result` raises IndexError out of the
handler — refuting "invoking the handler never raises an exception out of
the handler" for every registered handler and payload. -/
theorem dep_handler_raises_on_malformed :
    cbAppDependenciesRun ⟨false, 0, true, some 1, []⟩
      ⟨false, false, false, false, 0, 0, []⟩ = .error .indexError :=
  rfl

/-- C9 (amended): the subscribe/unsubscribe handlers and the forced-download
handler never let an exception escape for any payload — malformed payloads
only degrade to a generic or parse-failure log line — but the
dependency-result handler is not defensive: it succeeds (only) on payloads
carrying all expected fields and raises out of the handler otherwise. -/
theorem callback_handler_safety (op : String) (s : SessionState)
    (p : CallbackPayload) :
    (createCallbackRun op s p).isOk = true ∧
    (downloadCallbackRun p).isOk = true ∧
    ((p.hasArgs && p.hasResult && p.hasPublishedFileId && p.hasDepsList) = true →
      (cbAppDependenciesRun s p).isOk = true) := by
  refine ⟨?_, ?_, ?_⟩
  · unfold createCallbackRun
    by_cases h : p.hasArgs = true ∧ p.hasPublishedFileId = true
    · simp [h, Except.isOk, Except.toBool]
    · simp [h, Except.isOk, Except.toBool]
  · unfold downloadCallbackRun downloadCallbackBody
    by_cases h1 : p.hasArgs = false
    · simp [h1, Except.isOk, Except.toBool]
    · by_cases h2 : p.hasResult = false
      · simp [h1, h2, Except.isOk, Except.toBool]
      · by_cases h3 : p.hasPublishedFileId = false
        · simp [h1, h2, h3, Except.isOk, Except.toBool]
        · simp [h1, h2, h3, Except.isOk, Except.toBool]
  · intro hwf
    simp only [Bool.and_eq_true] at hwf
    unfold cbAppDependenciesRun
    simp [hwf.1.1.1, hwf.1.1.2, hwf.1.2, hwf.2, Except.isOk, Except.toBool]

/-- C9 witness: the safety theorem applied at a concrete well-formed
payload. -/
theorem callback_handler_safety_witness :
    (createCallbackRun "subscribe" ⟨false, 0, false, none, []⟩
      ⟨true, true, true, true, 5, 1, [42]⟩).isOk = true ∧
    (downloadCallbackRun ⟨true, true, true, true, 5, 1, [42]⟩).isOk = true ∧
    (cbAppDependenciesRun ⟨false, 0, false, none, []⟩
      ⟨true, true, true, true, 5, 1, [42]⟩).isOk = true := by
  have h := callback_handler_safety "subscribe" ⟨false, 0, false, none, []⟩
    ⟨true, true, true, true, 5, 1, [42]⟩
  exact ⟨h.1, h.2.1, h.2.2 rfl⟩

end RimSortSW
